import Mathlib

/-!
Verification development for the recommendation/plan-generation pipeline of
the HackRice finance backend (FastAPI + MongoDB + Gemini).

The definitions below are a shallow embedding of the Python source, chiefly
of src/src/routes/authenticated.py.  JSON values are modelled by the
inductive type Json; the Mongo users collection is modelled as an
association list from the supabase user id to the user document, itself an
association list from field names to Json values.  The generative model is
an unreliable external collaborator and is passed in as a function from the
prompt string to either an exception message or a parsed JSON value.
-/

/-- JSON values, as produced by the json module of Python.  Numbers are
modelled as integers; no claim in this development depends on non-integral
numerics. -/
inductive Json where
  | null : Json
  | bool : Bool → Json
  | num : Int → Json
  | str : String → Json
  | arr : List Json → Json
  | obj : List (String × Json) → Json

namespace Json

/-- Hex digit characters used by the unicode escapes of json.dumps. -/
def hexDigit (n : Nat) : Char :=
  if n < 10 then Char.ofNat (48 + n) else Char.ofNat (87 + n)

/-- Escaping of a single character inside a JSON string literal, modelling
json.dumps with its default ensure_ascii=True.  Codepoints above 0xFFFF are
approximated by a single unicode escape instead of a surrogate pair; no
claim depends on that corner. -/
def escapeJsonChar (c : Char) : String :=
  if c = '"' then "\\\""
  else if c = '\\' then "\\\\"
  else if c = '\n' then "\\n"
  else if c = '\r' then "\\r"
  else if c = '\t' then "\\t"
  else if c.toNat < 32 || c.toNat > 126 then
    "\\u" ++ ⟨[hexDigit (c.toNat / 4096 % 16), hexDigit (c.toNat / 256 % 16),
               hexDigit (c.toNat / 16 % 16), hexDigit (c.toNat % 16)]⟩
  else ⟨[c]⟩

/-- JSON string literal serialization, as json.dumps renders strings. -/
def dumpStr (s : String) : String :=
  "\"" ++ String.join (s.data.map escapeJsonChar) ++ "\""

/-- Model of json.dumps with the Python defaults: item separator comma
space, key separator colon space, insertion order preserved (sort_keys is
False, and Python dicts iterate in insertion order). -/
def dumps : Json → String
  | .null => "null"
  | .bool true => "true"
  | .bool false => "false"
  | .num n => toString n
  | .str s => dumpStr s
  | .arr xs => "[" ++ String.intercalate ", " (xs.attach.map (fun x => dumps x.1)) ++ "]"
  | .obj kvs => "\x7b" ++ String.intercalate ", " (kvs.attach.map (fun kv => dumpStr kv.1.1 ++ ": " ++ dumps kv.1.2)) ++ "\x7d"
decreasing_by
  · have h := List.sizeOf_lt_of_mem x.2
    simp only [arr.sizeOf_spec]
    omega
  · have h := List.sizeOf_lt_of_mem kv.2
    obtain ⟨⟨k, v⟩, hk⟩ := kv
    simp only [obj.sizeOf_spec, Prod.mk.sizeOf_spec] at *
    omega

end Json

/-- A Mongo user document: association list from field name to value, the
first binding of a key being the authoritative one. -/
abbrev Doc := List (String × Json)

/-- The users collection: association list from supabase_user_id to the
user document. -/
abbrev Store := List (String × Doc)

/-- First value bound to a key in a document, if any. -/
def getField : Doc → String → Option Json
  | [], _ => none
  | (k₀, v) :: rest, k => if k₀ = k then some v else getField rest k

/-- Python membership test on a dict: the key is present. -/
def hasField (d : Doc) (k : String) : Bool :=
  (getField d k).isSome

/-- Python dict.get with an explicit default. -/
def docGetD (d : Doc) (k : String) (dflt : Json) : Json :=
  (getField d k).getD dflt

/-- Replace the first binding of a key, or append the binding when the key
is absent; models a single-field Mongo set on a document. -/
def setField : Doc → String → Json → Doc
  | [], k, v => [(k, v)]
  | (k₀, v₀) :: rest, k, v =>
      if k₀ = k then (k₀, v) :: rest else (k₀, v₀) :: setField rest k v

/-- Apply a list of field sets in order; models a Mongo top-level set
document with several fields, applied in insertion order. -/
def applySets : Doc → List (String × Json) → Doc
  | d, [] => d
  | d, (k, v) :: rest => applySets (setField d k v) rest

/-- Model of find_one on the users collection filtered by
supabase_user_id: the first document whose key matches. -/
def getDoc : Store → String → Option Doc
  | [], _ => none
  | (u, d) :: rest, uid => if u = uid then some d else getDoc rest uid

/-- A top-level field of the stored user document, if the user exists and
the field is present. -/
def docField (store : Store) (uid k : String) : Option Json :=
  (getDoc store uid).bind (fun d => getField d k)

/-- Python truthiness of a JSON value: None, False, zero, and empty
strings, lists and dicts are falsy. -/
def jsonTruthy : Json → Bool
  | .null => false
  | .bool b => b
  | .num n => n != 0
  | .str s => !s.isEmpty
  | .arr xs => !xs.isEmpty
  | .obj kvs => !kvs.isEmpty

/-- Python truthiness of an Optional[str] field: None and the empty string
are falsy. -/
def optTruthy : Option String → Bool
  | none => false
  | some s => !s.isEmpty

/-- Python truthiness of a variable holding either None or a dict. -/
def docTruthy : Option Doc → Bool
  | none => false
  | some d => !d.isEmpty

/-- Python equality between a JSON value and a string: true exactly when
the value is that string. -/
def jsonEqStr : Json → String → Bool
  | .str t, s => t == s
  | _, _ => false

/-- Python `a or b` over JSON values: the first operand when truthy,
otherwise the second. -/
def pyOr (a b : Json) : Json :=
  if jsonTruthy a then a else b

/-- Model of str() applied to a JSON value.  For strings it is the
identity; None, booleans and numbers print the Python way.  The repr-style
printing of lists and dicts is approximated by json.dumps; no claim
depends on the container cases. -/
def pyStr : Json → String
  | .str s => s
  | .null => "None"
  | .bool true => "True"
  | .bool false => "False"
  | .num n => toString n
  | j => Json.dumps j

/-- Whitespace characters removed by str.strip() with no argument
(ASCII subset; the unicode extras do not matter to any claim). -/
def isSpaceChar (c : Char) : Bool :=
  c = ' ' || c = '\t' || c = '\n' || c = '\r' || c = '\x0b' || c = '\x0c'

/-- Model of str.strip(): drop leading and trailing whitespace. -/
def pyStrip (s : String) : String :=
  ⟨((s.data.dropWhile isSpaceChar).reverse.dropWhile isSpaceChar).reverse⟩

/-- Model of str.lower() (ASCII case folding, as Char.toLower provides). -/
def pyLower (s : String) : String :=
  ⟨s.data.map Char.toLower⟩

/-- Character-list prefix test, auxiliary to the substring test. -/
def startsWithChars : List Char → List Char → Bool
  | [], _ => true
  | _ :: _, [] => false
  | a :: as, b :: bs => a == b && startsWithChars as bs

/-- Character-list substring test, auxiliary to the Python `in` operator
on strings. -/
def hasSubChars (needle : List Char) : List Char → Bool
  | [] => needle.isEmpty
  | c :: rest => startsWithChars needle (c :: rest) || hasSubChars needle rest

/-- Python `pat in s` on strings: substring containment. -/
def strContains (s pat : String) : Bool :=
  hasSubChars pat.data s.data

/-- Python `key in item` for an arbitrary JSON value: key lookup on dicts,
element membership on lists, substring test on strings, and a TypeError on
the remaining scalar types. -/
def pyContains : Json → String → Except String Bool
  | Json.obj kvs, key => .ok (hasField kvs key)
  | Json.arr xs, key => .ok (xs.any (fun x => jsonEqStr x key))
  | Json.str s, key => .ok (strContains s key)
  | _, _ => .error "TypeError: argument of type is not iterable"

/-- Python `item[key]` with a string key: dict lookup, KeyError when the
key is absent, TypeError on every non-dict value. -/
def pySubscript : Json → String → Except String Json
  | Json.obj kvs, key =>
      match getField kvs key with
      | some v => .ok v
      | none => .error ("KeyError: " ++ key)
  | _, _ => .error "TypeError: value is not subscriptable with a string"

/-- Python `plan.get(key)`: dict lookup defaulting to None; an
AttributeError on every non-dict value. -/
def pyDictGet : Json → String → Except String Json
  | Json.obj kvs, key => .ok ((getField kvs key).getD Json.null)
  | _, _ => .error "AttributeError: value has no attribute get"

/-- The loop `for key in [...]: if key not in item: raise ValueError`,
shared by both validators (authenticated.py lines 108-111 and 261-263). -/
def checkKeys (item : Json) : List String → Except String Unit
  | [] => .ok ()
  | k :: rest =>
      match pyContains item k with
      | .error e => .error e
      | .ok b => if b then checkKeys item rest else .error ("Missing key: " ++ k)

/-- The five keys every recommendation item must carry
(authenticated.py line 109). -/
def recRequiredKeys : List String :=
  ["name", "imageUrl", "interestRate", "description", "bullets"]

/-- Validation of one recommendation item (authenticated.py lines
108-113): all five keys present, and the bullets value a list of exactly
four elements.  Element types inside bullets are not inspected. -/
def validateRecItem (item : Json) : Except String Unit :=
  match checkKeys item recRequiredKeys with
  | .error e => .error e
  | .ok _ =>
      match pySubscript item "bullets" with
      | .error e => .error e
      | .ok (Json.arr bs) =>
          if bs.length = 4 then .ok ()
          else .error "bullets must be an array of exactly 4 items"
      | .ok _ => .error "bullets must be an array of exactly 4 items"

/-- The `for item in data` loop of the recommendation validator. -/
def validateItems : List Json → Except String Unit
  | [] => .ok ()
  | item :: rest =>
      match validateRecItem item with
      | .error e => .error e
      | .ok _ => validateItems rest

/-- Validation of a parsed recommendation response (authenticated.py lines
106-113): a list of exactly 3 items, each passing validateRecItem. -/
def validateRecommendations (data : Json) : Except String Unit :=
  match data with
  | Json.arr items =>
      if items.length = 3 then validateItems items
      else .error "Model did not return exactly 3 items"
  | _ => .error "Model did not return exactly 3 items"

/-- The ten keys a guidance plan must carry (authenticated.py lines
257-260). -/
def planRequiredKeys : List String :=
  ["name", "issuer", "category", "annualFee", "rewardRate",
   "keyFeatures", "spendingTip", "upgradePathTip", "monthlyOptimizationTip", "extraTips"]

/-- Validation of a parsed guidance plan (authenticated.py lines 256-267):
all ten keys present, keyFeatures a list of exactly 5 elements, extraTips
a list of exactly 3 elements.  Element types are not inspected. -/
def validatePlan (plan : Json) : Except String Unit :=
  match checkKeys plan planRequiredKeys with
  | .error e => .error e
  | .ok _ =>
      match pyDictGet plan "keyFeatures" with
      | .error e => .error e
      | .ok (Json.arr xs) =>
          if xs.length = 5 then
            match pyDictGet plan "extraTips" with
            | .error e => .error e
            | .ok (Json.arr ys) =>
                if ys.length = 3 then .ok ()
                else .error "extraTips must have exactly 3 items"
            | .ok _ => .error "extraTips must have exactly 3 items"
          else .error "keyFeatures must have exactly 5 items"
      | .ok _ => .error "keyFeatures must have exactly 5 items"

/-- The card catalog (credit_cards.json) serialized back to a JSON value,
as json.dumps(cards) receives it. -/
def catalogJson (cards : List Doc) : Json :=
  Json.arr (cards.map Json.obj)

/-- The answers value read off a user document with default empty dict:
user_doc.get("answers", \x7b\x7d). -/
def docAnswers (d : Doc) : Json :=
  docGetD d "answers" (Json.obj [])

/-- The answers used by save-card: find_one or \x7b\x7d, then
get("answers", \x7b\x7d) (authenticated.py lines 226-227). -/
def savedAnswers (store : Store) (uid : String) : Json :=
  docAnswers ((getDoc store uid).getD [])

/-- The recommendation prompt (authenticated.py lines 80-93), rendered by
fixed string literals and json.dumps interpolation. -/
def recPrompt (answers : Json) (cards : List Doc) : String :=
  "You are a credit card recommendation assistant. " ++
  "Given the user\x27s answers and the list of available credit cards, " ++
  "return exactly 3 recommendations as a JSON array.\n\n" ++
  "User Answers JSON: " ++ Json.dumps answers ++ "\n\n" ++
  "Available Credit Cards JSON: " ++ Json.dumps (catalogJson cards) ++ "\n\n" ++
  "Response format (JSON array of 3 objects). Keys and rules: \n" ++
  "- name: string (card name)\n" ++
  "- imageUrl: string (use image_url from data)\n" ++
  "- interestRate: string (use apr_range from data)\n" ++
  "- description: string (2-3 concise sentences explaining why the card fits the user\x27s answers)\n" ++
  "- bullets: array of exactly 4 short bullet strings, each 5-7 words\n\n" ++
  "Only return the JSON array. No prose."

/-- The guidance-plan prompt (authenticated.py lines 229-245). -/
def planPrompt (answers : Json) (card : Doc) : String :=
  "You are a credit card guidance assistant.\n" ++
  "Given the user\x27s answers and the selected credit card details, return a single JSON object with: \n" ++
  "- name: string (card name)\n" ++
  "- issuer: string\n" ++
  "- category: string (use card_type)\n" ++
  "- annualFee: number (use annual_fee)\n" ++
  "- rewardRate: string (succinct summary from rewards_structure, e.g. \x274% dining; 1% other\x27)\n" ++
  "- keyFeatures: array of exactly 5 short bullet strings (10-20 words each)\n" ++
  "- spendingTip: one-sentence tip tailored to user answers\n" ++
  "- upgradePathTip: one-sentence tip about potential upgrade options\n" ++
  "- monthlyOptimizationTip: one-sentence tip to optimize monthly use\n" ++
  "- extraTips: array of exactly 3 short, specific tips (10-20 words)\n\n" ++
  "User Answers JSON: \n" ++ Json.dumps answers ++ "\n\n" ++
  "Selected Card JSON: \n" ++ Json.dumps (Json.obj card) ++ "\n\n" ++
  "Only return JSON, no explanation or prose."

/-- The chat prompt (authenticated.py lines 315-328). -/
def chatPrompt (profile answers savedPlans previousRecs : Json) (cards : List Doc) (message : String) : String :=
  "You are a friendly, practical credit card advisor.\n" ++
  "Use ONLY the provided user context and the card catalog.\n" ++
  "Be specific, avoid generic fluff. If some detail is unknown, say so briefly.\n" ++
  "Prefer recommending from saved cards and prior recommendations when relevant.\n" ++
  "When listing tips, use concise bullets.\n\n" ++
  "User Profile JSON:\n" ++ Json.dumps profile ++ "\n\n" ++
  "User Answers JSON:\n" ++ Json.dumps answers ++ "\n\n" ++
  "Saved Card Plans JSON (per card_id => \x7bcard, plan\x7d):\n" ++ Json.dumps savedPlans ++ "\n\n" ++
  "Previous Recommendations JSON (array):\n" ++ Json.dumps previousRecs ++ "\n\n" ++
  "Available Credit Cards Catalog JSON:\n" ++ Json.dumps (catalogJson cards) ++ "\n\n" ++
  "User Message:\n" ++ message ++ "\n\n" ++
  "Now provide your best, tailored advice in plain text."

/-- The three prompting task types of the pipeline. -/
inductive TaskType where
  | recommendTop3 : TaskType
  | guidancePlan : TaskType
  | chatAdvice : TaskType

/-- Everything a prompt can draw on: the context bundle of the spec. -/
structure PromptContext where
  answers : Json
  catalog : List Doc
  card : Doc
  profile : Json
  savedPlans : Json
  previousRecs : Json
  message : String

/-- Dispatch of prompt construction over the task type; each branch is the
string-building code of the corresponding route. -/
def buildPrompt : TaskType → PromptContext → String
  | .recommendTop3, c => recPrompt c.answers c.catalog
  | .guidancePlan, c => planPrompt c.answers c.card
  | .chatAdvice, c => chatPrompt c.profile c.answers c.savedPlans c.previousRecs c.catalog c.message

/-- Model of update_one with a top-level set document and an upsert flag:
the first document matching the user id receives the sets; with upsert, a
missing document is created from the sets alone.  The returned flag is
whether an upsert happened (result.upserted_id). -/
def updateSet : Store → String → List (String × Json) → Bool → Store × Bool
  | [], uid, sets, upsert =>
      if upsert then ([(uid, applySets [] sets)], true) else ([], false)
  | (u, d) :: rest, uid, sets, upsert =>
      if u = uid then ((u, applySets d sets) :: rest, false)
      else
        let r := updateSet rest uid sets upsert
        ((u, d) :: r.1, r.2)

/-- The submit-answers controller (authenticated.py lines 27-40):
merge-set the answers and answers_metadata fields with upsert. -/
def save_answers (store : Store) (uid : String) (answers metadata : Json) : Store × Bool :=
  updateSet store uid [("answers", answers), ("answers_metadata", metadata)] true

/-- The single-document effect of the dotted set
saved_card_plans.card_id: the saved_card_plans subdocument gains or
replaces the entry of that card id.  When the field holds a non-document
value Mongo raises, which the route swallows; the error carries that
case. -/
def setCardPlanInDoc (d : Doc) (cid : String) (v : Json) : Except String Doc :=
  match getField d "saved_card_plans" with
  | none => .ok (setField d "saved_card_plans" (Json.obj [(cid, v)]))
  | some (Json.obj kvs) => .ok (setField d "saved_card_plans" (Json.obj (setField kvs cid v)))
  | some _ => .error "Cannot create field in element of non-document type"

/-- Store-level effect of the save-card persistence update (upsert on the
user id); a raising single-document update leaves the store unchanged,
matching the except-pass wrapper around it (authenticated.py lines
270-280). -/
def updateCardPlan : Store → String → String → Json → Store
  | [], uid, cid, v => [(uid, [("saved_card_plans", Json.obj [(cid, v)])])]
  | (u, d) :: rest, uid, cid, v =>
      if u = uid then
        match setCardPlanInDoc d cid v with
        | .ok d2 => (u, d2) :: rest
        | .error _ => (u, d) :: rest
      else (u, d) :: updateCardPlan rest uid cid v

/-- The minimal card snapshot persisted with a plan (authenticated.py
lines 214-222); absent catalog fields become None. -/
def mkSnapshot (card : Doc) : Doc :=
  [("id", docGetD card "id" Json.null),
   ("name", docGetD card "name" Json.null),
   ("issuer", docGetD card "issuer" Json.null),
   ("card_type", docGetD card "card_type" Json.null),
   ("annual_fee", docGetD card "annual_fee" Json.null),
   ("apr_range", docGetD card "apr_range" Json.null),
   ("image_url", docGetD card "image_url" Json.null)]

/-- First list element satisfying a predicate; models next() over a
filtering generator with default None. -/
def findFirst (p : Doc → Bool) : List Doc → Option Doc
  | [] => none
  | c :: rest => if p c then some c else findFirst p rest

/-- The card lookup of save-card (authenticated.py lines 204-209): by id
when card_id is truthy, with a fallback by normalized name when no card
was found and name is truthy. -/
def lookupCard (cards : List Doc) (cardId nm : Option String) : Option Doc :=
  let card1 : Option Doc :=
    if optTruthy cardId then
      findFirst (fun c => jsonEqStr (docGetD c "id" Json.null) (cardId.getD "")) cards
    else none
  if !(docTruthy card1) && optTruthy nm then
    findFirst (fun c =>
      pyLower (pyStrip (pyStr (docGetD c "name" (Json.str "")))) == pyLower (pyStrip (nm.getD ""))) cards
  else card1

/-- The selected card after the final truthiness gate `if not card` that
raises 404 (authenticated.py lines 210-211): a falsy lookup result (None
or an empty dict) counts as not found. -/
def selectedCard (cards : List Doc) (cardId nm : Option String) : Option Doc :=
  let card := lookupCard cards cardId nm
  if docTruthy card then card else none

/-- Outcome of a route call: a JSON-serializable success value, or an
HTTPException with status code and detail. -/
inductive Outcome (α : Type) where
  | ok : α → Outcome α
  | httpError : Nat → String → Outcome α

/-- Status code of an outcome; none on success. -/
def Outcome.statusCode {α : Type} : Outcome α → Option Nat
  | .ok _ => none
  | .httpError n _ => some n

/-- Result of running a route against the embedded store: the HTTP
outcome, the store after the call, and how many times the completion
service was invoked. -/
structure RouteOut where
  outcome : Outcome Json
  store : Store
  geminiCalls : Nat

/-- Message of the exception the store driver raises when a write fails;
the text is opaque to every claim. -/
def storeWriteError : String := "store write failed"

/-- The GET /recommendations route (authenticated.py lines 69-127).  The
completion service appears as the function gem from the prompt to either
an exception message or the parsed JSON of the response text; writeFails
states whether the recommendation write raises. -/
def get_recommendations (store : Store) (uid : String) (cards : List Doc)
    (writeFails : Bool) (gem : String → Except String Json) : RouteOut :=
  match getDoc store uid with
  | none => ⟨.httpError 404 "User answers not found. Please submit answers first.", store, 0⟩
  | some doc =>
      if hasField doc "answers" then
        match gem (recPrompt (docAnswers doc) cards) with
        | .error e => ⟨.httpError 500 ("Failed to generate recommendations: " ++ e), store, 1⟩
        | .ok data =>
            match validateRecommendations data with
            | .error e => ⟨.httpError 500 ("Failed to generate recommendations: " ++ e), store, 1⟩
            | .ok _ =>
                if writeFails then
                  ⟨.httpError 500 ("Failed to generate recommendations: " ++ storeWriteError), store, 1⟩
                else
                  ⟨.ok data, (updateSet store uid [("gemini_recommendations", data)] false).1, 1⟩
      else ⟨.httpError 404 "User answers not found. Please submit answers first.", store, 0⟩

/-- The JSON body returned by a successful save-card call
(authenticated.py lines 282-286). -/
def saveCardResponse (snapshot : Doc) (plan : Json) : Json :=
  Json.obj [("message", Json.str "Card saved and guidance generated"),
            ("saved_card", Json.obj snapshot),
            ("plan", plan)]

/-- The POST /save-card route (authenticated.py lines 196-290): look the
card up, build the plan prompt from the stored answers, invoke the model,
validate the plan shape, persist under saved_card_plans keyed by the card
id (write failures swallowed), and return the snapshot with the plan. -/
def save_card (cards : List Doc) (cardId nm : Option String) (store : Store)
    (uid : String) (writeFails : Bool) (gem : String → Except String Json) : RouteOut :=
  match selectedCard cards cardId nm with
  | none => ⟨.httpError 404 "Selected card not found (provide valid card_id or name)", store, 0⟩
  | some card =>
      let snapshot := mkSnapshot card
      match gem (planPrompt (savedAnswers store uid) card) with
      | .error e => ⟨.httpError 500 ("Failed to generate plan: " ++ e), store, 1⟩
      | .ok plan =>
          match validatePlan plan with
          | .error e => ⟨.httpError 500 ("Failed to generate plan: " ++ e), store, 1⟩
          | .ok _ =>
              let cid := pyOr (docGetD card "id" Json.null) (docGetD snapshot "id" Json.null)
              let entry := Json.obj [("card", Json.obj snapshot), ("plan", plan)]
              let store2 :=
                if jsonTruthy cid then
                  if writeFails then store else updateCardPlan store uid (pyStr cid) entry
                else store
              ⟨.ok (saveCardResponse snapshot plan), store2, 1⟩

/-- Whether a JSON value is a string. -/
def isStringJson : Json → Bool
  | .str _ => true
  | _ => false

/-- Acceptance shape for one recommendation item as the validator
enforces it: a mapping with all five required keys whose bullets value is
a sequence of exactly 4 items of any type. -/
def claimRecItemOk (item : Json) : Bool :=
  match item with
  | Json.obj kvs =>
      recRequiredKeys.all (fun k => hasField kvs k) &&
      (match getField kvs "bullets" with
       | some (Json.arr bs) => decide (bs.length = 4)
       | _ => false)
  | _ => false

/-- Acceptance shape for a recommendation response as the validator
enforces it: a sequence of exactly 3 mappings, each passing
claimRecItemOk. -/
def claimRecOk (data : Json) : Bool :=
  match data with
  | Json.arr items => decide (items.length = 3) && items.all claimRecItemOk
  | _ => false

/-- Modelled from the spec: the shape claim C1 states for one item, with
bullets required to be a sequence of exactly 4 strings. -/
def specRecItemOk (item : Json) : Bool :=
  match item with
  | Json.obj kvs =>
      recRequiredKeys.all (fun k => hasField kvs k) &&
      (match getField kvs "bullets" with
       | some (Json.arr bs) => decide (bs.length = 4) && bs.all isStringJson
       | _ => false)
  | _ => false

/-- Modelled from the spec: the shape claim C1 states for a whole
response. -/
def specRecOk (data : Json) : Bool :=
  match data with
  | Json.arr items => decide (items.length = 3) && items.all specRecItemOk
  | _ => false

/-- A recommendation item whose bullets are four numbers instead of four
strings. -/
def numericBulletsItem : Json :=
  Json.obj [("name", Json.str "Card A"),
            ("imageUrl", Json.str "http://img"),
            ("interestRate", Json.str "15%-25%"),
            ("description", Json.str "Fits the user"),
            ("bullets", Json.arr [Json.num 1, Json.num 2, Json.num 3, Json.num 4])]

/-- A three-item response whose bullets are numbers throughout: the code
accepts it although the claimed shape requires strings. -/
def numericBulletsData : Json :=
  Json.arr [numericBulletsItem, numericBulletsItem, numericBulletsItem]

/-- Acceptance shape for a guidance plan as both the code and claim C2
state it: a single mapping with all ten keys, keyFeatures a sequence of
exactly 5 items, extraTips a sequence of exactly 3 items. -/
def claimPlanOk (plan : Json) : Bool :=
  match plan with
  | Json.obj kvs =>
      planRequiredKeys.all (fun k => hasField kvs k) &&
      (match getField kvs "keyFeatures" with
       | some (Json.arr xs) => decide (xs.length = 5)
       | _ => false) &&
      (match getField kvs "extraTips" with
       | some (Json.arr ys) => decide (ys.length = 3)
       | _ => false)
  | _ => false

/-- Modelled from the spec: the name-fallback selection exactly as claim
C10 words it, with no truthiness conditions: whenever a name is supplied,
the entry whose stringified name equals the supplied name after trimming
and lowercasing both is selected. -/
def specNameSelect (cards : List Doc) : Option String → Option Doc
  | some s => findFirst (fun c =>
      pyLower (pyStrip (pyStr (docGetD c "name" (Json.str "")))) == pyLower (pyStrip s)) cards
  | none => none

/-- Modelled from the spec: the lookup exactly as claim C10 words it: if
card_id matches the id of some catalog entry that entry is selected,
otherwise the name fallback runs, and only when both fail is the result
empty (NotFound). -/
def specLookupCard (cards : List Doc) (cardId nm : Option String) : Option Doc :=
  match cardId with
  | some s =>
      match findFirst (fun c => jsonEqStr (docGetD c "id" Json.null) s) cards with
      | some c => some c
      | none => specNameSelect cards nm
  | none => specNameSelect cards nm

/-- Modelled from the spec, amended: id lookup only for a non-empty
card_id. -/
def specSelectByIdA (cards : List Doc) : Option String → Option Doc
  | some s =>
      if s.isEmpty then none
      else findFirst (fun c => jsonEqStr (docGetD c "id" Json.null) s) cards
  | none => none

/-- Modelled from the spec, amended: name fallback only for a non-empty
name, and a matched entry that is an empty mapping counts as not found. -/
def specSelectByNameA (cards : List Doc) : Option String → Option Doc
  | some s =>
      if s.isEmpty then none
      else
        match findFirst (fun c =>
          pyLower (pyStrip (pyStr (docGetD c "name" (Json.str "")))) == pyLower (pyStrip s)) cards with
        | some c => if c.isEmpty then none else some c
        | none => none
  | none => none

/-- Modelled from the spec, amended claim C10: id lookup first, name
fallback second, both under the amended side conditions. -/
def specLookupCardAmended (cards : List Doc) (cardId nm : Option String) : Option Doc :=
  match specSelectByIdA cards cardId with
  | some c => some c
  | none => specSelectByNameA cards nm

/-- A one-entry catalog whose only card has the empty string as id. -/
def emptyIdCatalog : List Doc := [[("id", Json.str "")]]

/-- The saved_card_plans entry of one card id on the stored user
document, when the field is a mapping holding that id. -/
def planEntry (store : Store) (uid cid : String) : Option Json :=
  match docField store uid "saved_card_plans" with
  | some (Json.obj kvs) => getField kvs cid
  | _ => none

/-- On a dict, the required-keys loop succeeds exactly when every key is
present. -/
theorem checkKeys_obj_iff (kvs : Doc) (ks : List String) :
    checkKeys (Json.obj kvs) ks = .ok () ↔ ks.all (fun k => hasField kvs k) = true := by
  induction ks with
  | nil => simp [checkKeys]
  | cons k rest ih =>
      simp only [checkKeys, pyContains, List.all_cons, Bool.and_eq_true]
      cases h : hasField kvs k with
      | true => simp [h, ih]
      | false => simp [h]

/-- A failing required-keys loop on a dict means some key is absent. -/
theorem checkKeys_error_all_false (kvs : Doc) (ks : List String) (e : String)
    (h : checkKeys (Json.obj kvs) ks = .error e) :
    ks.all (fun k => hasField kvs k) = false := by
  cases hb : ks.all (fun k => hasField kvs k) with
  | false => rfl
  | true => rw [(checkKeys_obj_iff kvs ks).mpr hb] at h; cases h

/-- Item-level characterization of the recommendation validator: it
accepts exactly the mappings with all five keys and a four-element bullets
list. -/
theorem validateRecItem_ok_iff (item : Json) :
    validateRecItem item = .ok () ↔ claimRecItemOk item = true := by
  cases item with
  | null => simp [validateRecItem, checkKeys, pyContains, recRequiredKeys, claimRecItemOk]
  | bool b => simp [validateRecItem, checkKeys, pyContains, recRequiredKeys, claimRecItemOk]
  | num n => simp [validateRecItem, checkKeys, pyContains, recRequiredKeys, claimRecItemOk]
  | str s =>
      simp only [validateRecItem, claimRecItemOk]
      cases h : checkKeys (Json.str s) recRequiredKeys with
      | error e => simp
      | ok u => cases u; simp [pySubscript]
  | arr xs =>
      simp only [validateRecItem, claimRecItemOk]
      cases h : checkKeys (Json.arr xs) recRequiredKeys with
      | error e => simp
      | ok u => cases u; simp [pySubscript]
  | obj kvs =>
      simp only [validateRecItem, claimRecItemOk]
      cases h : checkKeys (Json.obj kvs) recRequiredKeys with
      | error e => simp [checkKeys_error_all_false kvs recRequiredKeys e h]
      | ok u =>
          cases u
          have hall := (checkKeys_obj_iff kvs recRequiredKeys).mp h
          have hbul : hasField kvs "bullets" = true := by
            simp [recRequiredKeys] at hall
            exact hall.2.2.2.2
          cases hb : getField kvs "bullets" with
          | none => simp [hasField, hb] at hbul
          | some v =>
              simp only [pySubscript, hb]
              cases v
              case arr bs =>
                by_cases h4 : bs.length = 4 <;> simp [h4, hall, hb]
              all_goals simp [hall, hb]

/-- The item loop of the recommendation validator succeeds exactly when
every item passes. -/
theorem validateItems_ok_iff (l : List Json) :
    validateItems l = .ok () ↔ l.all claimRecItemOk = true := by
  induction l with
  | nil => simp [validateItems]
  | cons x xs ih =>
      simp only [validateItems, List.all_cons, Bool.and_eq_true]
      cases h : validateRecItem x with
      | error e =>
          have hx : ¬ (claimRecItemOk x = true) := by
            rw [← validateRecItem_ok_iff, h]
            simp
          simp [hx]
      | ok u =>
          cases u
          have hx := (validateRecItem_ok_iff x).mp h
          simp [hx, ih]

/-- C1, counterexample: the recommendation validator accepts a response
whose bullets are four numbers, although the claimed acceptance condition
demands four strings; the claim as stated is therefore false of the
code. -/
theorem rec_bullets_strings_not_enforced :
    validateRecommendations numericBulletsData = Except.ok () ∧
      specRecOk numericBulletsData = false := by
  constructor
  · rfl
  · rfl

/-- C1, amended: a model response for get-recommendations is accepted
exactly when the parsed value is a sequence of exactly 3 mappings, each
containing all 5 required keys and each bullets value a sequence of
exactly 4 items (their element types are not inspected); any deviation is
rejected with the schema error. -/
theorem rec_response_accepted_iff (data : Json) :
    validateRecommendations data = Except.ok () ↔ claimRecOk data = true := by
  cases data with
  | arr items =>
      simp only [validateRecommendations, claimRecOk, Bool.and_eq_true, decide_eq_true_eq]
      by_cases h3 : items.length = 3
      · simp [h3, validateItems_ok_iff]
      · simp [h3]
  | null => simp [validateRecommendations, claimRecOk]
  | bool b => simp [validateRecommendations, claimRecOk]
  | num n => simp [validateRecommendations, claimRecOk]
  | str s => simp [validateRecommendations, claimRecOk]
  | obj kvs => simp [validateRecommendations, claimRecOk]

/-- C2: a model-produced guidance plan is accepted exactly when it is a
single mapping containing all 10 required keys, with keyFeatures a
sequence of exactly 5 items and extraTips a sequence of exactly 3 items;
any deviation is rejected with the schema error. -/
theorem plan_response_accepted_iff (plan : Json) :
    validatePlan plan = Except.ok () ↔ claimPlanOk plan = true := by
  cases plan with
  | null => simp [validatePlan, checkKeys, pyContains, planRequiredKeys, claimPlanOk]
  | bool b => simp [validatePlan, checkKeys, pyContains, planRequiredKeys, claimPlanOk]
  | num n => simp [validatePlan, checkKeys, pyContains, planRequiredKeys, claimPlanOk]
  | str s =>
      simp only [validatePlan, claimPlanOk]
      cases h : checkKeys (Json.str s) planRequiredKeys with
      | error e => simp
      | ok u => cases u; simp [pyDictGet]
  | arr xs =>
      simp only [validatePlan, claimPlanOk]
      cases h : checkKeys (Json.arr xs) planRequiredKeys with
      | error e => simp
      | ok u => cases u; simp [pyDictGet]
  | obj kvs =>
      simp only [validatePlan, claimPlanOk]
      cases h : checkKeys (Json.obj kvs) planRequiredKeys with
      | error e => simp [checkKeys_error_all_false kvs planRequiredKeys e h]
      | ok u =>
          cases u
          have hall := (checkKeys_obj_iff kvs planRequiredKeys).mp h
          have hkf : hasField kvs "keyFeatures" = true := by
            simp [planRequiredKeys] at hall
            exact hall.2.2.2.2.2.1
          have het : hasField kvs "extraTips" = true := by
            simp [planRequiredKeys] at hall
            exact hall.2.2.2.2.2.2.2.2.2
          cases hgkf : getField kvs "keyFeatures" with
          | none => simp [hasField, hgkf] at hkf
          | some v =>
              simp only [pyDictGet, hgkf, Option.getD_some]
              cases v with
              | null => simp [hall, hgkf]
              | bool b => simp [hall, hgkf]
              | num n => simp [hall, hgkf]
              | str s => simp [hall, hgkf]
              | obj o => simp [hall, hgkf]
              | arr xs =>
                  by_cases h5 : xs.length = 5
                  · simp only [h5, if_true]
                    cases hget : getField kvs "extraTips" with
                    | none => simp [hasField, hget] at het
                    | some w =>
                        simp only [pyDictGet, hget, Option.getD_some]
                        cases w with
                        | null => simp [hall, hgkf, hget, h5]
                        | bool b => simp [hall, hgkf, hget, h5]
                        | num n => simp [hall, hgkf, hget, h5]
                        | str s => simp [hall, hgkf, hget, h5]
                        | obj o => simp [hall, hgkf, hget, h5]
                        | arr ys =>
                            by_cases h3 : ys.length = 3 <;> simp [h3, hall, hgkf, hget, h5]
                  · simp [h5, hall, hgkf]

/-- A stored user who has submitted answers. -/
def ansStore : Store := [("u1", [("answers", Json.obj [("budget", Json.str "low")])])]

/-- The user document inside ansStore. -/
def ansDoc : Doc := [("answers", Json.obj [("budget", Json.str "low")])]

/-- A parsed model response with only two items. -/
def twoItemData : Json := Json.arr [Json.obj [], Json.obj []]

/-- A recommendation item of the valid shape with string bullets. -/
def validRecItem : Json :=
  Json.obj [("name", Json.str "Card A"),
            ("imageUrl", Json.str "http://img"),
            ("interestRate", Json.str "15%-25%"),
            ("description", Json.str "Fits the user"),
            ("bullets", Json.arr [Json.str "a", Json.str "b", Json.str "c", Json.str "d"])]

/-- A fully valid three-item recommendation response. -/
def validRecData : Json := Json.arr [validRecItem, validRecItem, validRecItem]

/-- A fully valid guidance plan. -/
def validPlanData : Json :=
  Json.obj [("name", Json.str "Amex Gold"),
            ("issuer", Json.str "Amex"),
            ("category", Json.str "rewards"),
            ("annualFee", Json.num 250),
            ("rewardRate", Json.str "4% dining; 1% other"),
            ("keyFeatures", Json.arr [Json.str "f1", Json.str "f2", Json.str "f3", Json.str "f4", Json.str "f5"]),
            ("spendingTip", Json.str "t1"),
            ("upgradePathTip", Json.str "t2"),
            ("monthlyOptimizationTip", Json.str "t3"),
            ("extraTips", Json.arr [Json.str "e1", Json.str "e2", Json.str "e3"])]

/-- A catalog card used by the concrete scenarios. -/
def amexCard : Doc :=
  [("id", Json.str "amex-1"),
   ("name", Json.str "Amex Gold"),
   ("issuer", Json.str "Amex"),
   ("card_type", Json.str "rewards"),
   ("annual_fee", Json.num 250),
   ("apr_range", Json.str "20-28%"),
   ("image_url", Json.str "http://img/amex")]

/-- A one-card catalog. -/
def demoCatalog : List Doc := [amexCard]

/-- C5: a get-recommendations call for a user with no stored answers (no
document, or a document without an answers field) fails with 404, leaves
the store unchanged and never invokes the completion service. -/
theorem no_answers_gives_404 (store : Store) (uid : String) (cards : List Doc)
    (writeFails : Bool) (gem : String → Except String Json)
    (hmiss : ∀ d, getDoc store uid = some d → hasField d "answers" = false) :
    (get_recommendations store uid cards writeFails gem).outcome.statusCode = some 404 ∧
    (get_recommendations store uid cards writeFails gem).store = store ∧
    (get_recommendations store uid cards writeFails gem).geminiCalls = 0 := by
  cases h : getDoc store uid with
  | none => simp [get_recommendations, h, Outcome.statusCode]
  | some d =>
      have hd := hmiss d h
      simp [get_recommendations, h, hd, Outcome.statusCode]

/-- C5 witness: the empty store at a concrete user id. -/
theorem no_answers_gives_404_witness :
    (get_recommendations [] "u1" [] false (fun _ => Except.error "down")).outcome.statusCode = some 404 ∧
    (get_recommendations [] "u1" [] false (fun _ => Except.error "down")).store = [] ∧
    (get_recommendations [] "u1" [] false (fun _ => Except.error "down")).geminiCalls = 0 :=
  no_answers_gives_404 [] "u1" [] false (fun _ => Except.error "down") (fun _ h => nomatch h)

/-- C3: when the model response of a get-recommendations request parses
but fails validation, the request fails with HTTP 500 and the store is
byte-for-byte unchanged: nothing is persisted before validation
succeeds. -/
theorem rec_validation_failure_persists_nothing (store : Store) (uid : String)
    (cards : List Doc) (writeFails : Bool) (gem : String → Except String Json)
    (doc : Doc) (data : Json) (e : String)
    (hdoc : getDoc store uid = some doc)
    (hans : hasField doc "answers" = true)
    (hresp : gem (recPrompt (docAnswers doc) cards) = Except.ok data)
    (hval : validateRecommendations data = Except.error e) :
    (get_recommendations store uid cards writeFails gem).outcome.statusCode = some 500 ∧
    (get_recommendations store uid cards writeFails gem).store = store := by
  simp [get_recommendations, hdoc, hans, hresp, hval, Outcome.statusCode]

/-- C3 witness: a two-item model response for a stored user; the request
fails and the stored document keeps its prior state. -/
theorem rec_validation_failure_persists_nothing_witness :
    (get_recommendations ansStore "u1" [] false (fun _ => Except.ok twoItemData)).outcome.statusCode = some 500 ∧
    (get_recommendations ansStore "u1" [] false (fun _ => Except.ok twoItemData)).store = ansStore :=
  rec_validation_failure_persists_nothing ansStore "u1" [] false
    (fun _ => Except.ok twoItemData) ansDoc twoItemData
    "Model did not return exactly 3 items" rfl rfl rfl rfl

/-- C4, counterexample: a get-recommendations request whose generation and
validation succeed but whose store write fails returns HTTP 500 instead of
the generated array; the claim that the response still succeeds for both
operations is false of the code. -/
theorem rec_write_failure_fails_response :
    validateRecommendations validRecData = Except.ok () ∧
    (get_recommendations ansStore "u1" demoCatalog true (fun _ => Except.ok validRecData)).outcome.statusCode = some 500 :=
  ⟨rfl, rfl⟩

/-- C4, amended: a store-write failure after successful generation and
validation is non-fatal for save-card, which still returns the snapshot
and the generated plan with the store unchanged, whereas the same failure
in get-recommendations escapes to the generic handler and fails the
request with HTTP 500. -/
theorem write_failure_policy (cards : List Doc) (cardId nm : Option String)
    (store : Store) (uid : String) (gem1 gem2 : String → Except String Json)
    (card doc : Doc) (plan data : Json)
    (hsel : selectedCard cards cardId nm = some card)
    (hplan : gem1 (planPrompt (savedAnswers store uid) card) = Except.ok plan)
    (hval : validatePlan plan = Except.ok ())
    (hdoc : getDoc store uid = some doc)
    (hans : hasField doc "answers" = true)
    (hdata : gem2 (recPrompt (docAnswers doc) cards) = Except.ok data)
    (hvdata : validateRecommendations data = Except.ok ()) :
    (save_card cards cardId nm store uid true gem1).outcome = Outcome.ok (saveCardResponse (mkSnapshot card) plan) ∧
    (save_card cards cardId nm store uid true gem1).store = store ∧
    (get_recommendations store uid cards true gem2).outcome.statusCode = some 500 ∧
    (get_recommendations store uid cards true gem2).store = store := by
  refine ⟨?_, ?_, ?_, ?_⟩
  · simp [save_card, hsel, hplan, hval]
  · simp [save_card, hsel, hplan, hval]
  · simp [get_recommendations, hdoc, hans, hdata, hvdata, Outcome.statusCode]
  · simp [get_recommendations, hdoc, hans, hdata, hvdata]

/-- C4 witness: concrete store, catalog and model outputs exercising both
halves of the amended policy. -/
theorem write_failure_policy_witness :
    (save_card demoCatalog (some "amex-1") none ansStore "u1" true (fun _ => Except.ok validPlanData)).outcome = Outcome.ok (saveCardResponse (mkSnapshot amexCard) validPlanData) ∧
    (save_card demoCatalog (some "amex-1") none ansStore "u1" true (fun _ => Except.ok validPlanData)).store = ansStore ∧
    (get_recommendations ansStore "u1" demoCatalog true (fun _ => Except.ok validRecData)).outcome.statusCode = some 500 ∧
    (get_recommendations ansStore "u1" demoCatalog true (fun _ => Except.ok validRecData)).store = ansStore :=
  write_failure_policy demoCatalog (some "amex-1") none ansStore "u1"
    (fun _ => Except.ok validPlanData) (fun _ => Except.ok validRecData)
    amexCard ansDoc validPlanData validRecData rfl rfl rfl rfl rfl rfl rfl

/-- Reading a key straight after setting it yields the written value. -/
theorem getField_setField_self (d : Doc) (k : String) (v : Json) :
    getField (setField d k v) k = some v := by
  induction d with
  | nil => simp [setField, getField]
  | cons hd rest ih =>
      obtain ⟨k₀, v₀⟩ := hd
      by_cases h : k₀ = k
      · simp [setField, getField, h]
      · simp [setField, getField, h, ih]

/-- Setting one key leaves every other key unchanged. -/
theorem getField_setField_ne (d : Doc) (k : String) (v : Json) (k2 : String)
    (h : k2 ≠ k) :
    getField (setField d k v) k2 = getField d k2 := by
  induction d with
  | nil => simp [setField, getField, Ne.symm h]
  | cons hd rest ih =>
      obtain ⟨k₀, v₀⟩ := hd
      by_cases h0 : k₀ = k
      · subst h0
        simp [setField, getField, Ne.symm h]
      · simp [setField, getField, h0, ih]

/-- Setting a key to the value it already holds is a no-op. -/
theorem setField_of_getField_eq (d : Doc) (k : String) (v : Json)
    (h : getField d k = some v) :
    setField d k v = d := by
  induction d with
  | nil => simp [getField] at h
  | cons hd rest ih =>
      obtain ⟨k₀, v₀⟩ := hd
      by_cases h0 : k₀ = k
      · subst h0
        simp [getField] at h
        simp [setField, h]
      · simp [getField, h0] at h
        simp [setField, h0, ih h]

/-- Applying the submit-answers field sets twice equals applying them
once, on any single document. -/
theorem save_answers_doc_idem (d : Doc) (a m : Json) :
    applySets (applySets d [("answers", a), ("answers_metadata", m)]) [("answers", a), ("answers_metadata", m)]
      = applySets d [("answers", a), ("answers_metadata", m)] := by
  simp only [applySets]
  have hne : ("answers" : String) ≠ "answers_metadata" := by decide
  have h1 : getField (setField (setField d "answers" a) "answers_metadata" m) "answers" = some a := by
    rw [getField_setField_ne _ _ _ _ hne, getField_setField_self]
  rw [setField_of_getField_eq _ _ _ h1]
  rw [setField_of_getField_eq _ _ _ (getField_setField_self _ _ _)]

/-- An upserting update with idempotent field sets is idempotent on the
whole store. -/
theorem updateSet_upsert_idem (store : Store) (uid : String) (L : List (String × Json))
    (hL : ∀ d, applySets (applySets d L) L = applySets d L) :
    (updateSet (updateSet store uid L true).1 uid L true).1 = (updateSet store uid L true).1 := by
  induction store with
  | nil => simp [updateSet, hL []]
  | cons hd rest ih =>
      obtain ⟨u, d⟩ := hd
      by_cases hu : u = uid
      · simp [updateSet, hu, hL d]
      · simp [updateSet, hu, ih]

/-- C7: submit-answers is idempotent: after a second call with the
identical payload, the stored answers and answers_metadata fields equal
their state after the first call (for every user and every prior store
contents). -/
theorem submit_answers_idempotent (store : Store) (uid : String) (answers metadata : Json) :
    docField (save_answers (save_answers store uid answers metadata).1 uid answers metadata).1 uid "answers"
      = docField (save_answers store uid answers metadata).1 uid "answers" ∧
    docField (save_answers (save_answers store uid answers metadata).1 uid answers metadata).1 uid "answers_metadata"
      = docField (save_answers store uid answers metadata).1 uid "answers_metadata" := by
  have hidem := updateSet_upsert_idem store uid [("answers", answers), ("answers_metadata", metadata)]
    (fun d => save_answers_doc_idem d answers metadata)
  simp only [save_answers]
  rw [hidem]
  exact ⟨rfl, rfl⟩

/-- The save-card persistence update touches no top-level field of the
user document other than saved_card_plans. -/
theorem updateCardPlan_docField_ne (store : Store) (uid cid : String) (v : Json)
    (k : String) (hk : k ≠ "saved_card_plans") :
    docField (updateCardPlan store uid cid v) uid k = docField store uid k := by
  induction store with
  | nil => simp [updateCardPlan, docField, getDoc, getField, Ne.symm hk]
  | cons hd rest ih =>
      obtain ⟨u, d⟩ := hd
      by_cases hu : u = uid
      · subst hu
        cases hscp : getField d "saved_card_plans" with
        | none =>
            simp [updateCardPlan, setCardPlanInDoc, hscp, docField, getDoc,
                  getField_setField_ne _ _ _ _ hk]
        | some j =>
            cases j with
            | obj kvs =>
                simp [updateCardPlan, setCardPlanInDoc, hscp, docField, getDoc,
                      getField_setField_ne _ _ _ _ hk]
            | null => simp [updateCardPlan, setCardPlanInDoc, hscp]
            | bool b => simp [updateCardPlan, setCardPlanInDoc, hscp]
            | num n => simp [updateCardPlan, setCardPlanInDoc, hscp]
            | str s => simp [updateCardPlan, setCardPlanInDoc, hscp]
            | arr xs => simp [updateCardPlan, setCardPlanInDoc, hscp]
      · simp only [updateCardPlan, hu, if_false, docField, getDoc] at ih ⊢
        simp [hu, ih]

/-- The save-card persistence update for one card id leaves the
saved_card_plans entry of every other card id unchanged. -/
theorem updateCardPlan_planEntry_ne (store : Store) (uid cid : String) (v : Json)
    (B : String) (hB : B ≠ cid) :
    planEntry (updateCardPlan store uid cid v) uid B = planEntry store uid B := by
  induction store with
  | nil =>
      simp [updateCardPlan, planEntry, docField, getDoc, getField, Ne.symm hB]
  | cons hd rest ih =>
      obtain ⟨u, d⟩ := hd
      by_cases hu : u = uid
      · subst hu
        cases hscp : getField d "saved_card_plans" with
        | none =>
            simp [updateCardPlan, setCardPlanInDoc, hscp, planEntry, docField, getDoc,
                  getField_setField_self, getField, Ne.symm hB]
        | some j =>
            cases j with
            | obj kvs =>
                simp [updateCardPlan, setCardPlanInDoc, hscp, planEntry, docField, getDoc,
                      getField_setField_self, getField_setField_ne _ _ _ _ hB]
            | null => simp [updateCardPlan, setCardPlanInDoc, hscp]
            | bool b => simp [updateCardPlan, setCardPlanInDoc, hscp]
            | num n => simp [updateCardPlan, setCardPlanInDoc, hscp]
            | str s => simp [updateCardPlan, setCardPlanInDoc, hscp]
            | arr xs => simp [updateCardPlan, setCardPlanInDoc, hscp]
      · simp only [planEntry, updateCardPlan, hu, if_false, docField, getDoc] at ih ⊢
        simp [hu, ih]

/-- A stored user owning answers and one saved plan under card id
chase-2. -/
def plansStore : Store :=
  [("u1", [("answers", Json.obj [("budget", Json.str "low")]),
           ("saved_card_plans", Json.obj [("chase-2", Json.str "oldplan")])])]

/-- C8: saving a card plan is isolated per card id: a save-card call that
selects a card whose id is the string A changes no top-level field of the
user document other than saved_card_plans, and leaves the
saved_card_plans entry of every other card id B unchanged. -/
theorem save_card_isolated (cards : List Doc) (cardId nm : Option String)
    (store : Store) (uid : String) (writeFails : Bool)
    (gem : String → Except String Json) (card : Doc) (A B : String)
    (hsel : selectedCard cards cardId nm = some card)
    (hA : docGetD card "id" Json.null = Json.str A)
    (hAB : A ≠ B) :
    (∀ k, k ≠ "saved_card_plans" →
      docField (save_card cards cardId nm store uid writeFails gem).store uid k
        = docField store uid k) ∧
    planEntry (save_card cards cardId nm store uid writeFails gem).store uid B
      = planEntry store uid B := by
  cases hg : gem (planPrompt (savedAnswers store uid) card) with
  | error e => simp [save_card, hsel, hg]
  | ok plan =>
      cases hv : validatePlan plan with
      | error e => simp [save_card, hsel, hg, hv]
      | ok u =>
          cases u
          have hsnap : docGetD (mkSnapshot card) "id" Json.null = Json.str A := by
            simp [mkSnapshot, docGetD, getField]
            exact hA
          have hcid : pyOr (docGetD card "id" Json.null) (docGetD (mkSnapshot card) "id" Json.null)
              = Json.str A := by
            rw [hA, hsnap]
            simp [pyOr]
          simp only [save_card, hsel, hg, hv]
          rw [hcid]
          cases htr : jsonTruthy (Json.str A) with
          | false => simp [htr]
          | true =>
              cases writeFails with
              | true => simp [htr]
              | false =>
                  simp only [htr, if_true, Bool.false_eq_true, if_false]
                  constructor
                  · intro k hk
                    simpa [pyStr] using updateCardPlan_docField_ne store uid A _ k hk
                  · simpa [pyStr] using updateCardPlan_planEntry_ne store uid A _ B (Ne.symm hAB)

/-- C8 witness: saving amex-1 for a user who already holds a chase-2 plan
leaves the answers field and the chase-2 entry untouched. -/
theorem save_card_isolated_witness :
    docField (save_card demoCatalog (some "amex-1") none plansStore "u1" false
        (fun _ => Except.ok validPlanData)).store "u1" "answers"
      = docField plansStore "u1" "answers" ∧
    planEntry (save_card demoCatalog (some "amex-1") none plansStore "u1" false
        (fun _ => Except.ok validPlanData)).store "u1" "chase-2"
      = planEntry plansStore "u1" "chase-2" :=
  ⟨(save_card_isolated demoCatalog (some "amex-1") none plansStore "u1" false
      (fun _ => Except.ok validPlanData) amexCard "amex-1" "chase-2" rfl rfl (by decide)).1
      "answers" (by decide),
   (save_card_isolated demoCatalog (some "amex-1") none plansStore "u1" false
      (fun _ => Except.ok validPlanData) amexCard "amex-1" "chase-2" rfl rfl (by decide)).2⟩

/-- A first-match search over a list with an everywhere-false predicate
finds nothing. -/
theorem findFirst_eq_none (p : Doc → Bool) (l : List Doc)
    (h : ∀ c ∈ l, p c = false) :
    findFirst p l = none := by
  induction l with
  | nil => rfl
  | cons c rest ih =>
      have hc := h c (List.mem_cons_self c rest)
      simp only [findFirst, hc, Bool.false_eq_true, if_false]
      exact ih (fun x hx => h x (List.mem_cons_of_mem c hx))

/-- Python equality of a JSON value with a string is false whenever the
value is not that string. -/
theorem jsonEqStr_eq_false (j : Json) (s : String) (h : j ≠ Json.str s) :
    jsonEqStr j s = false := by
  cases j with
  | str t =>
      simp only [jsonEqStr, beq_eq_false_iff_ne]
      intro ht
      exact h (by rw [ht])
  | null => rfl
  | bool b => rfl
  | num n => rfl
  | arr xs => rfl
  | obj kvs => rfl

/-- C6: a save-card request whose card_id matches no catalog id and whose
name matches no catalog name (after stripping and lowercasing both sides)
fails with 404, generates no plan (zero completion invocations) and
leaves the user document untouched. -/
theorem save_card_unknown_card_404 (cards : List Doc) (cardId nm : Option String)
    (store : Store) (uid : String) (writeFails : Bool) (gem : String → Except String Json)
    (hid : ∀ s, cardId = some s → ∀ c ∈ cards, docGetD c "id" Json.null ≠ Json.str s)
    (hname : ∀ s, nm = some s → ∀ c ∈ cards,
      pyLower (pyStrip (pyStr (docGetD c "name" (Json.str "")))) ≠ pyLower (pyStrip s)) :
    (save_card cards cardId nm store uid writeFails gem).outcome.statusCode = some 404 ∧
    (save_card cards cardId nm store uid writeFails gem).store = store ∧
    (save_card cards cardId nm store uid writeFails gem).geminiCalls = 0 := by
  have hfname : ∀ s, nm = some s → findFirst (fun c =>
      pyLower (pyStrip (pyStr (docGetD c "name" (Json.str "")))) == pyLower (pyStrip s)) cards = none :=
    fun s hs => findFirst_eq_none _ _ (fun c hc => by
      rw [beq_eq_false_iff_ne]
      exact hname s hs c hc)
  have hlu : lookupCard cards cardId nm = none := by
    cases cardId with
    | none =>
        cases nm with
        | none => rfl
        | some s =>
            by_cases hs : s.isEmpty
            · simp [lookupCard, optTruthy, docTruthy, hs]
            · simp [lookupCard, optTruthy, docTruthy, hs, hfname s rfl]
    | some s0 =>
        have hf0 : findFirst (fun c => jsonEqStr (docGetD c "id" Json.null) s0) cards = none :=
          findFirst_eq_none _ _ (fun c hc => jsonEqStr_eq_false _ _ (hid s0 rfl c hc))
        by_cases hs0 : s0.isEmpty
        · cases nm with
          | none => simp [lookupCard, optTruthy, docTruthy, hs0]
          | some s =>
              by_cases hs : s.isEmpty
              · simp [lookupCard, optTruthy, docTruthy, hs0, hs]
              · simp [lookupCard, optTruthy, docTruthy, hs0, hs, hfname s rfl]
        · cases nm with
          | none => simp [lookupCard, optTruthy, docTruthy, hs0, hf0]
          | some s =>
              by_cases hs : s.isEmpty
              · simp [lookupCard, optTruthy, docTruthy, hs0, hs, hf0]
              · simp [lookupCard, optTruthy, docTruthy, hs0, hs, hf0, hfname s rfl]
  have hsel : selectedCard cards cardId nm = none := by
    simp [selectedCard, hlu, docTruthy]
  refine ⟨?_, ?_, ?_⟩ <;> simp [save_card, hsel, Outcome.statusCode]

/-- C6 witness: unknown card_id visa-123 and unmatched name against the
one-card catalog. -/
theorem save_card_unknown_card_404_witness :
    (save_card demoCatalog (some "visa-123") (some "No Card") ansStore "u1" false
        (fun _ => Except.error "down")).outcome.statusCode = some 404 ∧
    (save_card demoCatalog (some "visa-123") (some "No Card") ansStore "u1" false
        (fun _ => Except.error "down")).store = ansStore ∧
    (save_card demoCatalog (some "visa-123") (some "No Card") ansStore "u1" false
        (fun _ => Except.error "down")).geminiCalls = 0 :=
  save_card_unknown_card_404 demoCatalog (some "visa-123") (some "No Card") ansStore "u1" false
    (fun _ => Except.error "down")
    (by
      intro s hs c hc
      cases hs
      have hc2 : c = amexCard := by simpa [demoCatalog] using hc
      subst hc2
      intro h
      injection h with h2
      exact absurd h2 (by decide))
    (by
      intro s hs c hc
      cases hs
      have hc2 : c = amexCard := by simpa [demoCatalog] using hc
      subst hc2
      decide)

/-- C9: prompt construction is deterministic: for one task type and equal
context bundles the rendered prompt strings are byte-identical; the
builder is a pure function of the context. -/
theorem prompt_deterministic (t : TaskType) (c1 c2 : PromptContext) (h : c1 = c2) :
    buildPrompt t c1 = buildPrompt t c2 := by
  rw [h]

/-- A concrete context bundle for the determinism witness. -/
def demoContext : PromptContext :=
  ⟨Json.obj [("budget", Json.str "low")], demoCatalog, amexCard,
   Json.obj [], Json.obj [], Json.arr [], "what card should I use"⟩

/-- C9 witness: two renderings of the recommendation prompt at the same
concrete context coincide. -/
theorem prompt_deterministic_witness :
    buildPrompt TaskType.recommendTop3 demoContext = buildPrompt TaskType.recommendTop3 demoContext :=
  prompt_deterministic TaskType.recommendTop3 demoContext demoContext rfl

/-- A first-match search only returns elements satisfying the
predicate. -/
theorem findFirst_some (p : Doc → Bool) (l : List Doc) (c : Doc)
    (h : findFirst p l = some c) : p c = true := by
  induction l with
  | nil => simp [findFirst] at h
  | cons x rest ih =>
      by_cases hx : p x
      · simp only [findFirst, hx, if_true, Option.some.injEq] at h
        rw [← h]
        exact hx
      · simp only [findFirst, hx, if_false] at h
        exact ih h

/-- C10, counterexample: for the payload card_id equal to the empty
string against a catalog whose only entry has the empty string as id, the
claimed lookup selects that entry, but the code treats the empty card_id
as absent (Python truthiness) and raises NotFound. -/
theorem lookup_empty_id_divergence :
    specLookupCard emptyIdCatalog (some "") none = some [("id", Json.str "")] ∧
    selectedCard emptyIdCatalog (some "") none = none := by
  exact ⟨rfl, rfl⟩

/-- C10, amended: the save-card selection equals the claimed
priority lookup amended with Python truthiness: the id lookup runs only
for a non-empty card_id, the name fallback only for a non-empty name, and
a name-matched entry that is an empty mapping counts as not found. -/
theorem save_card_lookup_amended (cards : List Doc) (cardId nm : Option String) :
    selectedCard cards cardId nm = specLookupCardAmended cards cardId nm := by
  cases cardId with
  | none =>
      cases nm with
      | none => rfl
      | some s =>
          by_cases hs : s.isEmpty
          · simp [selectedCard, lookupCard, specLookupCardAmended, specSelectByIdA,
                  specSelectByNameA, optTruthy, docTruthy, hs]
          · simp only [selectedCard, lookupCard, specLookupCardAmended, specSelectByIdA,
                       specSelectByNameA, optTruthy, docTruthy, hs, Option.getD_some]
            cases hf : findFirst (fun c =>
                pyLower (pyStrip (pyStr (docGetD c "name" (Json.str "")))) == pyLower (pyStrip s)) cards with
            | none => simp [hf, docTruthy]
            | some c => cases hc : c.isEmpty <;> simp [hf, docTruthy, hc]
  | some s0 =>
      by_cases hs0 : s0.isEmpty
      · cases nm with
        | none =>
            simp [selectedCard, lookupCard, specLookupCardAmended, specSelectByIdA,
                  specSelectByNameA, optTruthy, docTruthy, hs0]
        | some s =>
            by_cases hs : s.isEmpty
            · simp [selectedCard, lookupCard, specLookupCardAmended, specSelectByIdA,
                    specSelectByNameA, optTruthy, docTruthy, hs0, hs]
            · simp only [selectedCard, lookupCard, specLookupCardAmended, specSelectByIdA,
                         specSelectByNameA, optTruthy, docTruthy, hs0, hs, Option.getD_some]
              cases hf : findFirst (fun c =>
                  pyLower (pyStrip (pyStr (docGetD c "name" (Json.str "")))) == pyLower (pyStrip s)) cards with
              | none => simp [hf, docTruthy]
              | some c => cases hc : c.isEmpty <;> simp [hf, docTruthy, hc]
      · cases hf0 : findFirst (fun c => jsonEqStr (docGetD c "id" Json.null) s0) cards with
        | some c0 =>
            have hc0 : c0.isEmpty = false := by
              have hp := findFirst_some _ _ _ hf0
              cases c0 with
              | nil => simp [docGetD, getField, jsonEqStr] at hp
              | cons hd tl => rfl
            simp [selectedCard, lookupCard, specLookupCardAmended, specSelectByIdA,
                  specSelectByNameA, optTruthy, docTruthy, hs0, hf0, hc0]
        | none =>
            cases nm with
            | none =>
                simp [selectedCard, lookupCard, specLookupCardAmended, specSelectByIdA,
                      specSelectByNameA, optTruthy, docTruthy, hs0, hf0]
            | some s =>
                by_cases hs : s.isEmpty
                · simp [selectedCard, lookupCard, specLookupCardAmended, specSelectByIdA,
                        specSelectByNameA, optTruthy, docTruthy, hs0, hs, hf0]
                · simp only [selectedCard, lookupCard, specLookupCardAmended, specSelectByIdA,
                             specSelectByNameA, optTruthy, docTruthy, hs0, hs, hf0, Option.getD_some]
                  cases hf : findFirst (fun c =>
                      pyLower (pyStrip (pyStr (docGetD c "name" (Json.str "")))) == pyLower (pyStrip s)) cards with
                  | none => simp [hf, docTruthy]
                  | some c => cases hc : c.isEmpty <;> simp [hf, docTruthy, hc]
